import Mathlib

/-!
Shallow embedding of the two training scripts of the dae repository:
src/train_recognition.py (namespace TR) and src/train_recognition_noncached.py
(namespace NC). The neural networks, the autodiff engine, the data pipeline and
the distributed runtime are external collaborators (out of scope per the spec);
they enter the embedding as abstract input streams and abstract functions.
Scalar tensor values read back on the host (loss.item(), accuracies) are
abstracted to rationals; a loss carries the math.isfinite flag of the float it
came from. The components living in util/misc.py (MetricLogger, NativeScaler,
load_model) are not under src/ and are modelled from the spec where noted.
The per-interval training metric window and the log file, which no claim
examines, are not part of the loop state.
-/

/-- Train or eval mode of a torch module, toggled by model.train() and
model.eval(). -/
inductive Mode where
  | train
  | eval
deriving DecidableEq

/-- A scalar loss as observed on the host by loss.item(): its numeric value,
abstracted to a rational, together with the math.isfinite flag of the float. -/
structure LossVal where
  val : ℚ
  finite : Bool

/-- Modelled from the spec: the MetricLogger / SmoothedValue pair of
util/misc.py is not under src/. Spec section 4.2: update(name, value, weight=1)
records a weighted observation and global_avg returns
sum(value*weight)/sum(weight) of the observations since the last reset. A Meter
holds the observations of one named metric. -/
structure Meter where
  obs : List (ℚ × ℚ)

def Meter.empty : Meter := { obs := [] }

def Meter.update (m : Meter) (v w : ℚ) : Meter := { obs := (v, w) :: m.obs }

def Meter.total (m : Meter) : ℚ := (m.obs.map (fun p => p.1 * p.2)).sum

def Meter.count (m : Meter) : ℚ := (m.obs.map (fun p => p.2)).sum

def Meter.global_avg (m : Meter) : ℚ := m.total / m.count

/-- The three meters the evaluate functions maintain
(metric_logger.meters for loss, acc1, acc5). -/
structure EvalLogger where
  lossM : Meter
  acc1M : Meter
  acc5M : Meter

def EvalLogger.empty : EvalLogger :=
  { lossM := Meter.empty, acc1M := Meter.empty, acc5M := Meter.empty }

/-- The aggregated dict returned by the evaluate functions. -/
structure EvalStats where
  loss : ℚ
  acc1 : ℚ
  acc5 : ℚ

/-- The argparse options that the verified claims depend on, shared by both
scripts (train_recognition.py lines 32-62, train_recognition_noncached.py lines
20-49). The remaining options configure external collaborators only. The
savePrefix field embeds the save_prefix option. -/
structure Args where
  accum_iter : ℕ
  save_freq : ℕ
  output_dir : String
  savePrefix : String

/-- The checkpoint bundle written by both scripts (train_recognition.py lines
159-165), tracked here by its iteration field; the model, optimizer and scaler
state dicts and the args record are external blobs with no bearing on the
claims. -/
structure Checkpoint where
  iteration : ℕ

/-- os.path.join(args.output_dir, save_prefix + "_checkpoint.pth"), the single
per-run checkpoint path (train_recognition.py line 167,
train_recognition_noncached.py line 162). -/
def checkpointPath (a : Args) : String :=
  a.output_dir ++ "/" ++ a.savePrefix ++ "_checkpoint.pth"

namespace TR

/-- One validation batch as evaluate observes it (train_recognition.py lines
195-209): the batch size samples.shape[0] and the externally computed
loss.item(), acc1.item(), acc5.item() of that batch. The forward pass and
misc.accuracy are external collaborators. -/
structure ValBatch where
  bsize : ℕ
  loss : ℚ
  acc1 : ℚ
  acc5 : ℚ

/-- What evaluate hands back to its caller: the stats dict (line 215) and the
mode the model is in when control returns. -/
structure EvalReturn where
  stats : EvalStats
  modeAtReturn : Mode

/-- Loop body of evaluate (train_recognition.py lines 195-209): the logger
records loss.item() through metric_logger.update with the default weight 1
(line 207) and acc1/acc5 with weight n = batch_size (lines 208-209). -/
def evalBody (L : EvalLogger) (b : ValBatch) : EvalLogger :=
  { lossM := L.lossM.update b.loss 1,
    acc1M := L.acc1M.update b.acc1 (b.bsize : ℚ),
    acc5M := L.acc5M.update b.acc5 (b.bsize : ℚ) }

/-- evaluate (train_recognition.py lines 186-215). The model is switched to
eval mode at line 193 and is never switched back inside evaluate, whatever mode
it had on entry (the modeIn argument is therefore unused on the right hand
side); the returned dict holds the global_avg of every meter (line 215). -/
def evaluate (_modeIn : Mode) (batches : List ValBatch) : EvalReturn :=
  let L := batches.foldl evalBody EvalLogger.empty
  { stats :=
      { loss := L.lossM.global_avg,
        acc1 := L.acc1M.global_avg,
        acc5 := L.acc5M.global_avg },
    modeAtReturn := Mode.eval }

/-- External inputs consumed by the training loop, indexed by the batch
counter: the observed training loss of every batch, the gradient contribution
its backward pass accumulates into the buffers (autodiff is external), and the
validation stream evaluate would iterate if invoked at that batch. -/
structure Streams where
  losses : ℕ → LossVal
  gradContribs : ℕ → ℚ
  valBatches : ℕ → List ValBatch

/-- Loop-carried state of main: the enumerate counter it, the accumulated
gradient buffer (abstracted to a single rational magnitude), the count of
optimizer.step calls, best_eval_acc1, the model mode, and whether the process
is still alive (sys.exit sets the exit code). -/
structure State where
  it : ℕ
  grad : ℚ
  nOptSteps : ℕ
  best_eval_acc1 : ℚ
  mode : Mode
  alive : Bool
  exitCode : Option ℕ

/-- Observable per-batch effects of one pass through the loop body. -/
structure Effects where
  scaledLoss : Option ℚ
  didBackward : Bool
  didUpdate : Bool
  didZeroGrad : Bool
  didMetricUpdate : Bool
  didEval : Bool
  didCheckpoint : Bool
  savedCheckpoint : Option Checkpoint
  savedPath : Option String
  exited : Option ℕ

/-- Effects of a batch on which nothing ran. -/
def Effects.none : Effects :=
  { scaledLoss := Option.none, didBackward := false, didUpdate := false,
    didZeroGrad := false, didMetricUpdate := false, didEval := false,
    didCheckpoint := false, savedCheckpoint := Option.none,
    savedPath := Option.none, exited := Option.none }

/-- Normal path of the loop body of main (train_recognition.py lines 142-184),
reached when the loss is finite. Line map: scaled loss (142); update_grad flag
of the loss scaler call (143); the loss scaler (NativeScalerWithGradNormCount
of util/misc.py, not under src/, modelled from the spec section 4.5)
accumulates the backward contribution every batch and steps the optimizer only
when update_grad holds; optimizer.zero_grad on the same boundary (144-145);
metric_logger.update (149); the evaluation trigger (151); evaluate (154); the
strict improvement test (157); the checkpoint bundle and its path (159-167);
the new best (168); model.train() after the phase (184). The conditionals of
the evaluation phase are written here as do_eval guards instead of one enclosing
if; the evaluate call is lazily irrelevant when do_eval is false. -/
def stepCore (a : Args) (s : State) (loss : LossVal) (gradContrib : ℚ)
    (valBatches : List ValBatch) : State × Effects :=
  let it := s.it
  let scaled := loss.val / (a.accum_iter : ℚ)
  let update_grad := (it + 1) % a.accum_iter == 0
  let do_eval := it != 0 && it % a.save_freq == 0
  let ev := evaluate s.mode valBatches
  let improves := do_eval && decide (s.best_eval_acc1 < ev.stats.acc1)
  ({ it := it + 1,
     grad := if update_grad then 0 else s.grad + gradContrib,
     nOptSteps := if update_grad then s.nOptSteps + 1 else s.nOptSteps,
     best_eval_acc1 := if improves then ev.stats.acc1 else s.best_eval_acc1,
     mode := if do_eval then Mode.train else s.mode,
     alive := true,
     exitCode := Option.none },
   { scaledLoss := some scaled,
     didBackward := true,
     didUpdate := update_grad,
     didZeroGrad := update_grad,
     didMetricUpdate := true,
     didEval := do_eval,
     didCheckpoint := improves,
     savedCheckpoint := if improves then some { iteration := it } else Option.none,
     savedPath := if improves then some (checkpointPath a) else Option.none,
     exited := Option.none })

/-- One pass through the body of the training loop of main
(train_recognition.py lines 127-184). A dead process consumes nothing; a
non-finite loss_value prints and calls sys.exit(1) at lines 138-140, before
the loss is scaled, before the backward pass and optimizer update, and before
the metric update. -/
def step (a : Args) (s : State) (loss : LossVal) (gradContrib : ℚ)
    (valBatches : List ValBatch) : State × Effects :=
  if s.alive = false then (s, Effects.none)
  else if loss.finite = false then
    ({ s with alive := false, exitCode := some 1 },
     { Effects.none with exited := some 1 })
  else stepCore a s loss gradContrib valBatches

/-- State after the setup phase of main (train_recognition.py lines 98-123).
misc.load_model at line 117 restores model, optimizer and scaler state, none of
which is a loop-state field here; after it, model.train() runs at line 119,
optimizer.zero_grad() at line 121 and best_eval_acc1 = 0.0 at line 123, and the
iteration counter comes from enumerate(train_loader) at line 127. Every field
below is therefore independent of the resume checkpoint. -/
def initState (_resume : Option Checkpoint) : State :=
  { it := 0, grad := 0, nOptSteps := 0, best_eval_acc1 := 0,
    mode := Mode.train, alive := true, exitCode := Option.none }

/-- State of the loop after the first n batches have been consumed. -/
def run (a : Args) (st : Streams) (resume : Option Checkpoint) : ℕ → State
  | 0 => initState resume
  | n + 1 =>
      (step a (run a st resume n) (st.losses n) (st.gradContribs n)
        (st.valBatches n)).1

/-- Effects produced by batch n of the run. -/
def effectsAt (a : Args) (st : Streams) (resume : Option Checkpoint)
    (n : ℕ) : Effects :=
  (step a (run a st resume n) (st.losses n) (st.gradContribs n)
    (st.valBatches n)).2

end TR

namespace NC

/-- One validation batch of the noncached script (train_recognition_noncached.py
lines 192-216): raw samples and integer targets abstracted to single rationals,
plus the leading dimension bsize read at line 213 (samples.shape[0], preserved
through the encoder). -/
structure ValBatch where
  samples : ℚ
  targets : ℚ
  bsize : ℕ

/-- The external computations of the noncached script, pure functions over the
abstracted tensors: encoder.forward_encoder, the classifier forward
model(samples), criterion(outputs, targets) as read back by loss.item()
together with its finiteness flag, the accuracy pair of misc.accuracy, and the
abstract AdamW update applied to the classifier parameters on a boundary
batch. -/
structure Funcs where
  encF : ℚ → ℚ
  modelF : ℚ → ℚ
  crit : ℚ → ℚ → LossVal
  accf : ℚ → ℚ → ℚ × ℚ
  optStep : ℚ → ℚ → ℚ

/-- The parameter groups the optimizer is constructed over. -/
inductive ParamGroup where
  | model
  | encoder
deriving DecidableEq

/-- train_recognition_noncached.py lines 99-100: param_groups =
misc.add_weight_decay(model, ...) hands the AdamW constructor the classifier
parameters only; the encoder parameters are in no group. -/
def optimizerParamGroups : List ParamGroup := [ParamGroup.model]

/-- What the noncached evaluate hands back: the stats dict (line 224), the
model mode at return, and the gradEnabled flag of every encoder forward call it
performed (all disabled by the torch.no_grad decorator at line 183). -/
structure EvalReturn where
  stats : EvalStats
  modeAtReturn : Mode
  encGradFlags : List Bool

/-- Loop body of the noncached evaluate (train_recognition_noncached.py lines
192-216) exactly as written in the source: the classifier forward and the loss
are computed twice in a row (lines 202-204 and again at lines 207-209); the
later bindings shadow the earlier ones. The logger records loss.item() with
the default weight 1 (line 214) and acc1/acc5 with n = bsize (lines
215-216). -/
def evalBody (F : Funcs) (L : EvalLogger) (b : ValBatch) : EvalLogger :=
  let feats := F.encF b.samples
  let outputs := F.modelF feats
  let loss := F.crit outputs b.targets
  let outputs := F.modelF feats
  let loss := F.crit outputs b.targets
  let acc := F.accf outputs b.targets
  { lossM := L.lossM.update loss.val 1,
    acc1M := L.acc1M.update acc.1 (b.bsize : ℚ),
    acc5M := L.acc5M.update acc.2 (b.bsize : ℚ) }

/-- The single-computation loop body the spec asks for (open question in
section 9 of the spec): identical to evalBody except that the classifier
forward and the loss are computed exactly once per batch. This definition
follows the words of the spec and exists to be compared with the source
translation. -/
def evalBodyOnce (F : Funcs) (L : EvalLogger) (b : ValBatch) : EvalLogger :=
  let feats := F.encF b.samples
  let outputs := F.modelF feats
  let loss := F.crit outputs b.targets
  let acc := F.accf outputs b.targets
  { lossM := L.lossM.update loss.val 1,
    acc1M := L.acc1M.update acc.1 (b.bsize : ℚ),
    acc5M := L.acc5M.update acc.2 (b.bsize : ℚ) }

/-- Encoder forward calls performed inside evaluate: one per validation batch,
each with gradients disabled by the torch.no_grad decorator at line 183. -/
def evalEncGradFlags (batches : List ValBatch) : List Bool :=
  batches.map (fun _ => false)

/-- The noncached evaluate (train_recognition_noncached.py lines 183-224): the
model is switched to eval mode at line 190 and never switched back inside
evaluate; the returned dict holds the global_avg of every meter (line 224). -/
def evaluate (F : Funcs) (_modeIn : Mode) (batches : List ValBatch) :
    EvalReturn :=
  let L := batches.foldl (evalBody F) EvalLogger.empty
  { stats :=
      { loss := L.lossM.global_avg,
        acc1 := L.acc1M.global_avg,
        acc5 := L.acc5M.global_avg },
    modeAtReturn := Mode.eval,
    encGradFlags := evalEncGradFlags batches }

/-- The noncached evaluate built over the single-computation body, following
the words of the spec, for comparison with the source translation. -/
def evaluateOnce (F : Funcs) (_modeIn : Mode) (batches : List ValBatch) :
    EvalReturn :=
  let L := batches.foldl (evalBodyOnce F) EvalLogger.empty
  { stats :=
      { loss := L.lossM.global_avg,
        acc1 := L.acc1M.global_avg,
        acc5 := L.acc5M.global_avg },
    modeAtReturn := Mode.eval,
    encGradFlags := evalEncGradFlags batches }

/-- External inputs consumed by the noncached training loop, indexed by the
batch counter: the raw training samples and targets, the gradient contribution
of the backward pass, and the validation stream evaluate would iterate if
invoked at that batch. -/
structure Streams where
  samples : ℕ → ℚ
  targets : ℕ → ℚ
  gradContribs : ℕ → ℚ
  valBatches : ℕ → List ValBatch

/-- Loop-carried state of the noncached main: the enumerate counter, the
gradient buffer, the classifier and encoder parameters (each abstracted to one
rational), the count of optimizer.step calls, best_eval_acc1, the two module
modes, and process liveness. -/
structure State where
  it : ℕ
  grad : ℚ
  modelParams : ℚ
  encoderParams : ℚ
  nOptSteps : ℕ
  best_eval_acc1 : ℚ
  modelMode : Mode
  encoderMode : Mode
  alive : Bool
  exitCode : Option ℕ

/-- Observable per-batch effects of one pass through the noncached loop body.
encGradFlags lists the gradEnabled flag of every encoder forward call the batch
performed, in order. -/
structure Effects where
  encGradFlags : List Bool
  scaledLoss : Option ℚ
  didBackward : Bool
  didUpdate : Bool
  didZeroGrad : Bool
  didMetricUpdate : Bool
  didEval : Bool
  didCheckpoint : Bool
  exited : Option ℕ

/-- Effects of a batch on which nothing ran. -/
def Effects.none : Effects :=
  { encGradFlags := [], scaledLoss := Option.none, didBackward := false,
    didUpdate := false, didZeroGrad := false, didMetricUpdate := false,
    didEval := false, didCheckpoint := false, exited := Option.none }

/-- Normal path of the noncached loop body
(train_recognition_noncached.py lines 137-179), reached when the loss is
finite. Same structure as the cached script: scaled loss (137), update_grad
flag (138), loss scaler backward accumulation with optimizer step on the
boundary only (spec section 4.5; util/misc.py is not under src/),
optimizer.zero_grad on the boundary (139-140), metric update (144), evaluation
trigger (146), evaluate (149), strict improvement test (152), new best (163),
model.train() after the phase (179). The optimizer step writes the classifier
parameters only, since its groups come from line 99; model.train() and
model.eval() touch the classifier mode only, so the encoder mode and
parameters are carried through unchanged. The dead line it += 1 at 181 has no
effect on the enumerate counter. -/
def stepCore (a : Args) (F : Funcs) (s : State) (loss : LossVal)
    (gradContrib : ℚ) (valBatches : List ValBatch) : State × Effects :=
  let it := s.it
  let scaled := loss.val / (a.accum_iter : ℚ)
  let update_grad := (it + 1) % a.accum_iter == 0
  let do_eval := it != 0 && it % a.save_freq == 0
  let ev := evaluate F s.modelMode valBatches
  let improves := do_eval && decide (s.best_eval_acc1 < ev.stats.acc1)
  ({ it := it + 1,
     grad := if update_grad then 0 else s.grad + gradContrib,
     modelParams :=
       if update_grad then F.optStep s.modelParams (s.grad + gradContrib)
       else s.modelParams,
     encoderParams := s.encoderParams,
     nOptSteps := if update_grad then s.nOptSteps + 1 else s.nOptSteps,
     best_eval_acc1 := if improves then ev.stats.acc1 else s.best_eval_acc1,
     modelMode := if do_eval then Mode.train else s.modelMode,
     encoderMode := s.encoderMode,
     alive := true,
     exitCode := Option.none },
   { encGradFlags :=
       false :: (if do_eval then evalEncGradFlags valBatches else []),
     scaledLoss := some scaled,
     didBackward := true,
     didUpdate := update_grad,
     didZeroGrad := update_grad,
     didMetricUpdate := true,
     didEval := do_eval,
     didCheckpoint := improves,
     exited := Option.none })

/-- One pass through the body of the noncached training loop
(train_recognition_noncached.py lines 116-181). The encoder forward at lines
118-121 runs inside a torch.no_grad block (gradEnabled false) and happens
before the finiteness check, so its call flag is recorded even on the batch
that aborts; a non-finite loss_value prints and calls sys.exit(1) at lines
133-135 before scaling, backward, optimizer update and metric update. -/
def step (a : Args) (F : Funcs) (s : State) (sample target gradContrib : ℚ)
    (valBatches : List ValBatch) : State × Effects :=
  if s.alive = false then (s, Effects.none)
  else
    let feats := F.encF sample
    let outputs := F.modelF feats
    let loss := F.crit outputs target
    if loss.finite = false then
      ({ s with alive := false, exitCode := some 1 },
       { Effects.none with encGradFlags := [false], exited := some 1 })
    else stepCore a F s loss gradContrib valBatches

/-- State after the setup phase of the noncached main
(train_recognition_noncached.py lines 86-112): the classifier and encoder
weights restored by misc.load_model at lines 104-105 enter as the m0 and e0
arguments; encoder.eval() at line 94 is never followed by another mode switch
of the encoder; model.train() at line 107, optimizer.zero_grad() at line 109,
best_eval_acc1 = 0.0 at line 111. -/
def initState (m0 e0 : ℚ) : State :=
  { it := 0, grad := 0, modelParams := m0, encoderParams := e0,
    nOptSteps := 0, best_eval_acc1 := 0, modelMode := Mode.train,
    encoderMode := Mode.eval, alive := true, exitCode := Option.none }

/-- State of the noncached loop after the first n batches have been
consumed. -/
def run (a : Args) (F : Funcs) (st : Streams) (m0 e0 : ℚ) : ℕ → State
  | 0 => initState m0 e0
  | n + 1 =>
      (step a F (run a F st m0 e0 n) (st.samples n) (st.targets n)
        (st.gradContribs n) (st.valBatches n)).1

/-- Effects produced by batch n of the noncached run. -/
def effectsAt (a : Args) (F : Funcs) (st : Streams) (m0 e0 : ℚ) (n : ℕ) :
    Effects :=
  (step a F (run a F st m0 e0 n) (st.samples n) (st.targets n)
    (st.gradContribs n) (st.valBatches n)).2

end NC

/-- The loss aggregate asserted by the claim that every metric recorded by
evaluate is weighted by the batch size: the batch-size-weighted mean of the
per-batch losses. This follows the words of the spec, for comparison with the
source translation. -/
def specLossBatchWeighted (batches : List TR.ValBatch) : ℚ :=
  (batches.map (fun b => b.loss * (b.bsize : ℚ))).sum
    / (batches.map (fun b => (b.bsize : ℚ))).sum

/-- Fixture: arguments with no accumulation and a sparse evaluation cadence. -/
def args0 : Args :=
  { accum_iter := 1, save_freq := 10, output_dir := "out", savePrefix := "run" }

/-- Fixture: arguments with a two-batch accumulation window. -/
def args1 : Args :=
  { accum_iter := 2, save_freq := 5, output_dir := "out", savePrefix := "run" }

/-- Fixture: arguments that evaluate every second batch. -/
def args2 : Args :=
  { accum_iter := 1, save_freq := 2, output_dir := "out", savePrefix := "run" }

/-- Fixture: finite unit losses, zero gradient contributions, an empty
validation stream. -/
def st0 : TR.Streams :=
  { losses := fun _ => { val := 1, finite := true },
    gradContribs := fun _ => 0,
    valBatches := fun _ => [] }

/-- Fixture: finite unit losses and a one-batch validation stream with top-1
accuracy 1. -/
def st4 : TR.Streams :=
  { losses := fun _ => { val := 1, finite := true },
    gradContribs := fun _ => 0,
    valBatches := fun _ => [{ bsize := 1, loss := 0, acc1 := 1, acc5 := 1 }] }

/-- Fixture: a non-finite observed loss. -/
def lossBad : LossVal := { val := 0, finite := false }

/-- Fixture: a live cached-script state fresh out of setup. -/
def sT0 : TR.State := TR.initState Option.none

/-- Fixture: noncached external functions whose criterion always reports a
non-finite loss. -/
def F0 : NC.Funcs :=
  { encF := id, modelF := id, crit := fun _ _ => lossBad,
    accf := fun _ _ => (0, 0), optStep := fun p _ => p }

/-- Fixture: a live noncached state fresh out of setup. -/
def sN0 : NC.State := NC.initState 0 0

/-- Fixture: a checkpoint recorded at iteration 10. -/
def ck10 : Checkpoint := { iteration := 10 }

/-- Fixture: a validation batch of size 1 with loss 0. -/
def b1 : TR.ValBatch := { bsize := 1, loss := 0, acc1 := 0, acc5 := 0 }

/-- Fixture: a validation batch of size 3 with loss 4. -/
def b2 : TR.ValBatch := { bsize := 3, loss := 4, acc1 := 0, acc5 := 0 }

/-- Updating a meter adds value*weight to its total. -/
theorem Meter.total_update (m : Meter) (v w : ℚ) :
    (m.update v w).total = v * w + m.total := by
  simp [Meter.update, Meter.total]

/-- Updating a meter adds the weight to its count. -/
theorem Meter.count_update (m : Meter) (v w : ℚ) :
    (m.update v w).count = w + m.count := by
  simp [Meter.update, Meter.count]

/-- Any window of a consecutive naturals contains exactly one j with
(j + 1) % a = 0. -/
theorem existsUnique_boundary (a : ℕ) (ha : 1 ≤ a) (k : ℕ) :
    ∃! j, (k ≤ j ∧ j < k + a) ∧ (j + 1) % a = 0 := by
  obtain ⟨q, s, hsa, hk⟩ : ∃ q s, s < a ∧ k = a * q + s :=
    ⟨k / a, k % a, Nat.mod_lt _ ha, (Nat.div_add_mod k a).symm⟩
  subst hk
  refine ⟨a * q + (a - 1), ⟨⟨by omega, by omega⟩, ?_⟩, ?_⟩
  · have h1 : a * q + (a - 1) + 1 = a * (q + 1) := by
      rw [Nat.mul_succ]; omega
    rw [h1, Nat.mul_mod_right]
  · rintro j ⟨⟨hkj, hja⟩, hj⟩
    obtain ⟨c, hc⟩ := Nat.dvd_of_mod_eq_zero hj
    have hq1 : q < c := by
      have h2 : a * q < a * c := by omega
      exact Nat.lt_of_mul_lt_mul_left h2
    have hq2 : c < q + 2 := by
      have h3 : a * (q + 2) = a * q + (a + a) := by rw [Nat.mul_add]; omega
      have h4 : a * c < a * (q + 2) := by rw [h3]; omega
      exact Nat.lt_of_mul_lt_mul_left h4
    have hcq : c = q + 1 := by omega
    subst hcq
    have h5 : a * (q + 1) = a * q + a := Nat.mul_succ a q
    omega

/-- Unfolding of run at a successor index. -/
theorem TR.run_succ (a : Args) (st : Streams) (resume : Option Checkpoint)
    (n : ℕ) :
    run a st resume (n + 1)
      = (step a (run a st resume n) (st.losses n) (st.gradContribs n)
          (st.valBatches n)).1 := rfl

/-- On a live state with a finite loss, step takes the normal path. -/
theorem TR.step_eq_core (a : Args) (s : State) (l : LossVal) (g : ℚ)
    (v : List ValBatch) (hal : s.alive = true) (hfl : l.finite = true) :
    step a s l g v = stepCore a s l g v := by
  simp [step, hal, hfl]

/-- The stats returned by evaluate do not depend on the mode the model had on
entry. -/
theorem TR.evaluate_stats_mode (m m' : Mode) (v : List ValBatch) :
    (evaluate m v).stats = (evaluate m' v).stats := rfl

/-- Projections of the normal step path: next counter value. -/
theorem TR.stepCore_it (a : Args) (s : State) (l : LossVal) (g : ℚ)
    (v : List ValBatch) : (stepCore a s l g v).1.it = s.it + 1 := rfl

/-- Projections of the normal step path: the process stays alive. -/
theorem TR.stepCore_alive (a : Args) (s : State) (l : LossVal) (g : ℚ)
    (v : List ValBatch) : (stepCore a s l g v).1.alive = true := rfl

/-- Projections of the normal step path: the gradient buffer after the batch. -/
theorem TR.stepCore_grad (a : Args) (s : State) (l : LossVal) (g : ℚ)
    (v : List ValBatch) :
    (stepCore a s l g v).1.grad
      = if (s.it + 1) % a.accum_iter == 0 then 0 else s.grad + g := rfl

/-- Projections of the normal step path: the model mode after the batch. -/
theorem TR.stepCore_mode (a : Args) (s : State) (l : LossVal) (g : ℚ)
    (v : List ValBatch) :
    (stepCore a s l g v).1.mode
      = if s.it != 0 && s.it % a.save_freq == 0 then Mode.train
        else s.mode := rfl

/-- Projections of the normal step path: the best score after the batch. -/
theorem TR.stepCore_best (a : Args) (s : State) (l : LossVal) (g : ℚ)
    (v : List ValBatch) :
    (stepCore a s l g v).1.best_eval_acc1
      = if (s.it != 0 && s.it % a.save_freq == 0)
            && decide (s.best_eval_acc1 < (evaluate s.mode v).stats.acc1)
        then (evaluate s.mode v).stats.acc1
        else s.best_eval_acc1 := rfl

/-- Projections of the normal step path: the optimizer update flag. -/
theorem TR.stepCore_didUpdate (a : Args) (s : State) (l : LossVal) (g : ℚ)
    (v : List ValBatch) :
    (stepCore a s l g v).2.didUpdate
      = ((s.it + 1) % a.accum_iter == 0) := rfl

/-- Projections of the normal step path: the zero-grad flag. -/
theorem TR.stepCore_didZeroGrad (a : Args) (s : State) (l : LossVal) (g : ℚ)
    (v : List ValBatch) :
    (stepCore a s l g v).2.didZeroGrad
      = ((s.it + 1) % a.accum_iter == 0) := rfl

/-- Projections of the normal step path: the evaluation trigger. -/
theorem TR.stepCore_didEval (a : Args) (s : State) (l : LossVal) (g : ℚ)
    (v : List ValBatch) :
    (stepCore a s l g v).2.didEval
      = (s.it != 0 && s.it % a.save_freq == 0) := rfl

/-- Projections of the normal step path: the checkpoint decision. -/
theorem TR.stepCore_didCheckpoint (a : Args) (s : State) (l : LossVal) (g : ℚ)
    (v : List ValBatch) :
    (stepCore a s l g v).2.didCheckpoint
      = ((s.it != 0 && s.it % a.save_freq == 0)
          && decide (s.best_eval_acc1 < (evaluate s.mode v).stats.acc1)) := rfl

/-- Projections of the normal step path: the checkpoint path written. -/
theorem TR.stepCore_savedPath (a : Args) (s : State) (l : LossVal) (g : ℚ)
    (v : List ValBatch) :
    (stepCore a s l g v).2.savedPath
      = if (s.it != 0 && s.it % a.save_freq == 0)
            && decide (s.best_eval_acc1 < (evaluate s.mode v).stats.acc1)
        then some (checkpointPath a)
        else Option.none := rfl

/-- Projections of the normal step path: the checkpoint bundle written. -/
theorem TR.stepCore_savedCheckpoint (a : Args) (s : State) (l : LossVal)
    (g : ℚ) (v : List ValBatch) :
    (stepCore a s l g v).2.savedCheckpoint
      = if (s.it != 0 && s.it % a.save_freq == 0)
            && decide (s.best_eval_acc1 < (evaluate s.mode v).stats.acc1)
        then some { iteration := s.it }
        else Option.none := rfl

/-- With finite losses the run never dies and its counter equals the number of
consumed batches. -/
theorem TR.run_spec (a : Args) (st : Streams) (resume : Option Checkpoint)
    (hfin : ∀ n, (st.losses n).finite = true) :
    ∀ n, (run a st resume n).alive = true ∧ (run a st resume n).it = n := by
  intro n
  induction n with
  | zero => exact ⟨rfl, rfl⟩
  | succ n ih =>
    have h := step_eq_core a (run a st resume n) (st.losses n)
      (st.gradContribs n) (st.valBatches n) ih.1 (hfin n)
    constructor
    · rw [run_succ, h]; exact stepCore_alive _ _ _ _ _
    · rw [run_succ, h, stepCore_it, ih.2]

/-- With finite losses, the effects of batch n come from the normal path
applied to the state after n batches. -/
theorem TR.effectsAt_eq_core (a : Args) (st : Streams)
    (resume : Option Checkpoint) (hfin : ∀ n, (st.losses n).finite = true)
    (n : ℕ) :
    effectsAt a st resume n
      = (stepCore a (run a st resume n) (st.losses n) (st.gradContribs n)
          (st.valBatches n)).2 := by
  unfold effectsAt
  rw [step_eq_core a _ _ _ _ ((run_spec a st resume hfin n).1) (hfin n)]

/-- With finite losses, the state after batch n comes from the normal path. -/
theorem TR.run_succ_core (a : Args) (st : Streams) (resume : Option Checkpoint)
    (hfin : ∀ n, (st.losses n).finite = true) (n : ℕ) :
    run a st resume (n + 1)
      = (stepCore a (run a st resume n) (st.losses n) (st.gradContribs n)
          (st.valBatches n)).1 := by
  rw [run_succ, step_eq_core a _ _ _ _ ((run_spec a st resume hfin n).1)
    (hfin n)]

/-- Unfolding of the noncached run at a successor index. -/
theorem NC.runNC_succ (a : Args) (F : Funcs) (st : Streams) (m0 e0 : ℚ)
    (n : ℕ) :
    run a F st m0 e0 (n + 1)
      = (step a F (run a F st m0 e0 n) (st.samples n) (st.targets n)
          (st.gradContribs n) (st.valBatches n)).1 := rfl

/-- Every path of the noncached step carries the encoder mode and the encoder
parameters through unchanged. -/
theorem NC.step_encoder_fields (a : Args) (F : Funcs) (s : State)
    (x y g : ℚ) (v : List ValBatch) :
    (step a F s x y g v).1.encoderMode = s.encoderMode ∧
    (step a F s x y g v).1.encoderParams = s.encoderParams := by
  simp only [step]
  split
  · exact ⟨rfl, rfl⟩
  · split
    · exact ⟨rfl, rfl⟩
    · exact ⟨rfl, rfl⟩

/-- Every encoder forward call of a noncached batch runs with gradients
disabled. -/
theorem NC.step_flags (a : Args) (F : Funcs) (s : State) (x y g : ℚ)
    (v : List ValBatch) :
    ∀ f ∈ (step a F s x y g v).2.encGradFlags, f = false := by
  intro f hf
  simp only [step] at hf
  split at hf
  · simp [Effects.none] at hf
  · split at hf
    · simp [Effects.none] at hf
      exact hf
    · simp only [stepCore, List.mem_cons] at hf
      rcases hf with rfl | hf
      · rfl
      · rcases hf with hf
        split at hf
        · simp only [evalEncGradFlags, List.mem_map] at hf
          exact hf.choose_spec.2.symm
        · simp at hf

/-- C1: in every run with accum_iter >= 1 (and finite losses, so that the loop
keeps consuming), a batch performs an optimizer update exactly when its index
satisfies (it + 1) % accum_iter = 0; the gradient buffers are zeroed exactly on
those update batches and never on a non-boundary batch; the gradient buffer is
zero immediately after an update batch; and every window of accum_iter
consecutive batch indices contains exactly one update, on its boundary
batch. -/
theorem c1_gradient_accumulation (a : Args) (st : TR.Streams)
    (resume : Option Checkpoint) (ha : 1 ≤ a.accum_iter)
    (hfin : ∀ n, (st.losses n).finite = true) :
    (∀ n, (TR.effectsAt a st resume n).didUpdate = true ↔
        (n + 1) % a.accum_iter = 0) ∧
    (∀ n, (TR.effectsAt a st resume n).didZeroGrad = true ↔
        (n + 1) % a.accum_iter = 0) ∧
    (∀ n, (n + 1) % a.accum_iter = 0 →
        (TR.run a st resume (n + 1)).grad = 0) ∧
    (∀ k, ∃! j, (k ≤ j ∧ j < k + a.accum_iter) ∧
        (TR.effectsAt a st resume j).didUpdate = true) := by
  have hit : ∀ n, (TR.run a st resume n).it = n :=
    fun n => (TR.run_spec a st resume hfin n).2
  have hiff : ∀ n, (TR.effectsAt a st resume n).didUpdate = true ↔
      (n + 1) % a.accum_iter = 0 := by
    intro n
    rw [TR.effectsAt_eq_core a st resume hfin n, TR.stepCore_didUpdate, hit n]
    simp
  refine ⟨hiff, ?_, ?_, ?_⟩
  · intro n
    rw [TR.effectsAt_eq_core a st resume hfin n, TR.stepCore_didZeroGrad,
      hit n]
    simp
  · intro n hb
    rw [TR.run_succ_core a st resume hfin n, TR.stepCore_grad, hit n, hb]
    simp
  · intro k
    obtain ⟨j0, hj0, hu⟩ := existsUnique_boundary a.accum_iter ha k
    exact ⟨j0, ⟨hj0.1, (hiff j0).mpr hj0.2⟩,
      fun y hy => hu y ⟨hy.1, (hiff y).mp hy.2⟩⟩

/-- Witness for C1 at accum_iter = 2: batch 1 is a boundary batch. -/
theorem c1_witness :
    1 ≤ args1.accum_iter ∧
    ((TR.effectsAt args1 st0 Option.none 1).didUpdate = true ↔
      (1 + 1) % args1.accum_iter = 0) :=
  ⟨by decide,
    (c1_gradient_accumulation args1 st0 Option.none (by decide)
      (fun _ => rfl)).1 1⟩

/-- C2: with save_freq > 0 (and finite losses), the loop enters the
evaluation/checkpoint phase after consuming batch n exactly when
n % save_freq = 0 and n is not 0; in particular never at iteration 0. -/
theorem c2_eval_cadence (a : Args) (st : TR.Streams)
    (resume : Option Checkpoint) (hsf : 0 < a.save_freq)
    (hfin : ∀ n, (st.losses n).finite = true) (n : ℕ) :
    (TR.effectsAt a st resume n).didEval = true ↔
      (n % a.save_freq = 0 ∧ n ≠ 0) := by
  rw [TR.effectsAt_eq_core a st resume hfin n, TR.stepCore_didEval,
    (TR.run_spec a st resume hfin n).2]
  rw [Bool.and_eq_true, bne_iff_ne, beq_iff_eq]
  exact and_comm

/-- Witness for C2 at save_freq = 2 and batch index 2. -/
theorem c2_witness :
    0 < args2.save_freq ∧
    ((TR.effectsAt args2 st0 Option.none 2).didEval = true ↔
      (2 % args2.save_freq = 0 ∧ 2 ≠ 0)) :=
  ⟨by decide,
    c2_eval_cadence args2 st0 Option.none (by decide) (fun _ => rfl) 2⟩

/-- C3: in both scripts, a live step whose observed loss is not finite kills
the process with exit code 1, and performs no loss scaling, no backward pass,
no optimizer update, no gradient clearing, no metric update and no
evaluation before dying. -/
theorem c3_nonfinite_loss_fatal (aT : Args) (sT : TR.State) (lT : LossVal)
    (gT : ℚ) (vT : List TR.ValBatch) (aN : Args) (F : NC.Funcs)
    (sN : NC.State) (x y gN : ℚ) (vN : List NC.ValBatch)
    (halT : sT.alive = true) (hnfT : lT.finite = false)
    (halN : sN.alive = true)
    (hnfN : (F.crit (F.modelF (F.encF x)) y).finite = false) :
    ((TR.step aT sT lT gT vT).1.alive = false ∧
     (TR.step aT sT lT gT vT).1.exitCode = some 1 ∧
     (TR.step aT sT lT gT vT).2.exited = some 1 ∧
     (TR.step aT sT lT gT vT).2.scaledLoss = Option.none ∧
     (TR.step aT sT lT gT vT).2.didBackward = false ∧
     (TR.step aT sT lT gT vT).2.didUpdate = false ∧
     (TR.step aT sT lT gT vT).2.didZeroGrad = false ∧
     (TR.step aT sT lT gT vT).2.didMetricUpdate = false ∧
     (TR.step aT sT lT gT vT).2.didEval = false) ∧
    ((NC.step aN F sN x y gN vN).1.alive = false ∧
     (NC.step aN F sN x y gN vN).1.exitCode = some 1 ∧
     (NC.step aN F sN x y gN vN).2.exited = some 1 ∧
     (NC.step aN F sN x y gN vN).2.scaledLoss = Option.none ∧
     (NC.step aN F sN x y gN vN).2.didBackward = false ∧
     (NC.step aN F sN x y gN vN).2.didUpdate = false ∧
     (NC.step aN F sN x y gN vN).2.didZeroGrad = false ∧
     (NC.step aN F sN x y gN vN).2.didMetricUpdate = false ∧
     (NC.step aN F sN x y gN vN).2.didEval = false) := by
  constructor
  · simp [TR.step, halT, hnfT, TR.Effects.none]
  · simp [NC.step, halN, hnfN, NC.Effects.none]

/-- Witness for C3: a concrete non-finite loss on fresh states of both
scripts. -/
theorem c3_witness :
    lossBad.finite = false ∧
    (TR.step args0 sT0 lossBad 0 []).1.exitCode = some 1 ∧
    (NC.step args0 F0 sN0 0 0 0 []).1.exitCode = some 1 :=
  ⟨rfl,
    (c3_nonfinite_loss_fatal args0 sT0 lossBad 0 [] args0 F0 sN0 0 0 0 []
      rfl rfl rfl rfl).1.2.1,
    (c3_nonfinite_loss_fatal args0 sT0 lossBad 0 [] args0 F0 sN0 0 0 0 []
      rfl rfl rfl rfl).2.2.1⟩

/-- C4: in an evaluation/checkpoint phase (batch n with the trigger satisfied,
losses finite so the loop reaches it), a checkpoint is written exactly when the
newly computed top-1 accuracy strictly exceeds the best value so far; a write
goes to the single per-run checkpoint path, records iteration n, and updates
the best value to the new accuracy; without a write the best value is
unchanged; the best value starts at 0 whatever checkpoint the run was resumed
from; and an evaluation result identical to the current best writes no
checkpoint. -/
theorem c4_checkpoint_policy (a : Args) (st : TR.Streams)
    (resume : Option Checkpoint) (hfin : ∀ n, (st.losses n).finite = true)
    (n : ℕ) (htrig : n ≠ 0 ∧ n % a.save_freq = 0) :
    ((TR.effectsAt a st resume n).didCheckpoint = true ↔
        (TR.run a st resume n).best_eval_acc1 <
          (TR.evaluate Mode.train (st.valBatches n)).stats.acc1) ∧
    ((TR.effectsAt a st resume n).didCheckpoint = true →
        (TR.effectsAt a st resume n).savedPath = some (checkpointPath a) ∧
        (TR.effectsAt a st resume n).savedCheckpoint
          = some { iteration := n } ∧
        (TR.run a st resume (n + 1)).best_eval_acc1
          = (TR.evaluate Mode.train (st.valBatches n)).stats.acc1) ∧
    ((TR.effectsAt a st resume n).didCheckpoint = false →
        (TR.run a st resume (n + 1)).best_eval_acc1
          = (TR.run a st resume n).best_eval_acc1) ∧
    ((TR.run a st resume 0).best_eval_acc1 = 0) ∧
    ((TR.evaluate Mode.train (st.valBatches n)).stats.acc1
          = (TR.run a st resume n).best_eval_acc1 →
        (TR.effectsAt a st resume n).didCheckpoint = false) := by
  have hit := (TR.run_spec a st resume hfin n).2
  have hdo : (n != 0 && n % a.save_freq == 0) = true := by
    rw [Bool.and_eq_true, bne_iff_ne, beq_iff_eq]
    exact ⟨htrig.1, htrig.2⟩
  have hcp : (TR.effectsAt a st resume n).didCheckpoint
      = decide ((TR.run a st resume n).best_eval_acc1 <
          (TR.evaluate Mode.train (st.valBatches n)).stats.acc1) := by
    rw [TR.effectsAt_eq_core a st resume hfin n, TR.stepCore_didCheckpoint,
      hit, TR.evaluate_stats_mode _ Mode.train, hdo, Bool.true_and]
  have hsp : (TR.effectsAt a st resume n).savedPath
      = if decide ((TR.run a st resume n).best_eval_acc1 <
            (TR.evaluate Mode.train (st.valBatches n)).stats.acc1)
        then some (checkpointPath a) else Option.none := by
    rw [TR.effectsAt_eq_core a st resume hfin n, TR.stepCore_savedPath, hit,
      TR.evaluate_stats_mode _ Mode.train, hdo, Bool.true_and]
  have hsc : (TR.effectsAt a st resume n).savedCheckpoint
      = if decide ((TR.run a st resume n).best_eval_acc1 <
            (TR.evaluate Mode.train (st.valBatches n)).stats.acc1)
        then some { iteration := n } else Option.none := by
    rw [TR.effectsAt_eq_core a st resume hfin n, TR.stepCore_savedCheckpoint,
      hit, TR.evaluate_stats_mode _ Mode.train, hdo, Bool.true_and]
  have hbest : (TR.run a st resume (n + 1)).best_eval_acc1
      = if decide ((TR.run a st resume n).best_eval_acc1 <
            (TR.evaluate Mode.train (st.valBatches n)).stats.acc1)
        then (TR.evaluate Mode.train (st.valBatches n)).stats.acc1
        else (TR.run a st resume n).best_eval_acc1 := by
    rw [TR.run_succ_core a st resume hfin n, TR.stepCore_best, hit,
      TR.evaluate_stats_mode _ Mode.train, hdo, Bool.true_and]
  refine ⟨?_, ?_, ?_, rfl, ?_⟩
  · rw [hcp]; simp
  · intro hT
    have hd : decide ((TR.run a st resume n).best_eval_acc1 <
        (TR.evaluate Mode.train (st.valBatches n)).stats.acc1) = true := by
      rw [← hcp]; exact hT
    rw [hsp, hsc, hbest, hd]
    exact ⟨rfl, rfl, rfl⟩
  · intro hF
    have hd : decide ((TR.run a st resume n).best_eval_acc1 <
        (TR.evaluate Mode.train (st.valBatches n)).stats.acc1) = false := by
      rw [← hcp]; exact hF
    rw [hbest, hd]
    rfl
  · intro heq
    rw [hcp, heq]
    simp

/-- Witness for C4: the trigger fires at batch 2 with save_freq = 2. -/
theorem c4_witness :
    (2 ≠ 0 ∧ 2 % args2.save_freq = 0) ∧
    ((TR.effectsAt args2 st4 Option.none 2).didCheckpoint = true ↔
      (TR.run args2 st4 Option.none 2).best_eval_acc1 <
        (TR.evaluate Mode.train (st4.valBatches 2)).stats.acc1) :=
  ⟨by decide,
    (c4_checkpoint_policy args2 st4 Option.none (fun _ => rfl) 2
      (by decide)).1⟩

/-- C5 counterexample: in a run resumed from a checkpoint recorded at
iteration 10, the first consumed batch carries index 0 (the enumerate counter
restarts), not the continuation index 11 required by the claim. -/
theorem c5_counterexample :
    (TR.run args0 st0 (some ck10) 0).it = 0 ∧ (0 : ℕ) ≠ ck10.iteration + 1 :=
  ⟨rfl, by decide⟩

/-- C5 amended: the run state, and in particular the iteration counter, is
independent of the resume checkpoint (misc.load_model restores model, optimizer
and scaler state, none of which is loop state); the counter of the n-th
consumed batch is always n, so a resumed run repeats the batch indices of the
original run instead of continuing from the stored iteration. -/
theorem c5_amended (a : Args) (st : TR.Streams) (resume : Option Checkpoint)
    (hfin : ∀ n, (st.losses n).finite = true) :
    (∀ n, TR.run a st resume n = TR.run a st Option.none n) ∧
    (∀ n, (TR.run a st resume n).it = n) := by
  constructor
  · intro n
    induction n with
    | zero => rfl
    | succ n ih => rw [TR.run_succ, TR.run_succ, ih]
  · intro n
    exact (TR.run_spec a st resume hfin n).2

/-- Witness for C5: after a resume from iteration 10, batch 3 still carries
index 3. -/
theorem c5_witness :
    (st0.losses 0).finite = true ∧
    (TR.run args0 st0 (some ck10) 3).it = 3 :=
  ⟨rfl, (c5_amended args0 st0 (some ck10) (fun _ => rfl)).2 3⟩

/-- C6 counterexample: evaluate invoked on a model in training mode returns
with the model still in eval mode, so the model is not restored to training
mode before evaluate returns control to its caller. -/
theorem c6_counterexample :
    (TR.evaluate Mode.train []).modeAtReturn = Mode.eval ∧
    Mode.eval ≠ Mode.train :=
  ⟨rfl, by decide⟩

/-- C6 amended: evaluate always returns with the model left in eval mode,
whatever mode it was invoked in; it is the training loop that switches the
model back to training mode after evaluate returns, so at the end of every
consumed batch (and initially) the model is in training mode. -/
theorem c6_amended :
    (∀ (m : Mode) (batches : List TR.ValBatch),
        (TR.evaluate m batches).modeAtReturn = Mode.eval) ∧
    (∀ (a : Args) (st : TR.Streams) (resume : Option Checkpoint) (n : ℕ),
        (TR.run a st resume n).mode = Mode.train) := by
  refine ⟨fun _ _ => rfl, fun a st resume n => ?_⟩
  induction n with
  | zero => rfl
  | succ n ih =>
    rw [TR.run_succ]
    unfold TR.step
    split
    · exact ih
    · split
      · exact ih
      · rw [TR.stepCore_mode]
        split
        · rfl
        · exact ih

/-- Totals and counts of the three meters after evaluate folds a batch list:
the loss meter counts one observation of weight 1 per batch, while the
accuracy meters weight every observation by the batch size. -/
theorem TR.fold_evalBody (batches : List ValBatch) (L : EvalLogger) :
    ((batches.foldl evalBody L).lossM.total
        = L.lossM.total + (batches.map (fun b => b.loss)).sum) ∧
    ((batches.foldl evalBody L).lossM.count
        = L.lossM.count + (batches.length : ℚ)) ∧
    ((batches.foldl evalBody L).acc1M.total
        = L.acc1M.total + (batches.map (fun b => b.acc1 * (b.bsize : ℚ))).sum) ∧
    ((batches.foldl evalBody L).acc1M.count
        = L.acc1M.count + (batches.map (fun b => (b.bsize : ℚ))).sum) ∧
    ((batches.foldl evalBody L).acc5M.total
        = L.acc5M.total + (batches.map (fun b => b.acc5 * (b.bsize : ℚ))).sum) ∧
    ((batches.foldl evalBody L).acc5M.count
        = L.acc5M.count + (batches.map (fun b => (b.bsize : ℚ))).sum) := by
  induction batches generalizing L with
  | nil => simp
  | cons b bs ih =>
    obtain ⟨h1, h2, h3, h4, h5, h6⟩ := ih (evalBody L b)
    simp only [List.foldl_cons, List.map_cons, List.sum_cons,
      List.length_cons]
    rw [h1, h2, h3, h4, h5, h6]
    simp only [evalBody, Meter.total_update, Meter.count_update]
    refine ⟨by ring, by push_cast; ring, by ring, by ring, by ring, by ring⟩

/-- C7 counterexample: on two batches of sizes 1 and 3 with losses 0 and 4,
evaluate returns the unweighted per-batch mean 2, not the batch-size-weighted
mean 3 asserted by the claim. -/
theorem c7_counterexample :
    (TR.evaluate Mode.train [b1, b2]).stats.loss = 2 ∧
    specLossBatchWeighted [b1, b2] = 3 ∧ (2 : ℚ) ≠ 3 := by
  refine ⟨?_, ?_, by norm_num⟩
  · simp [TR.evaluate, TR.evalBody, b1, b2, Meter.global_avg, Meter.total,
      Meter.count, Meter.update, EvalLogger.empty, Meter.empty]
    norm_num
  · simp [specLossBatchWeighted, b1, b2]
    norm_num

/-- C7 amended: the top-1 and top-5 accuracies returned by evaluate are
batch-size-weighted means over the validation stream, but the returned loss is
recorded with the default weight 1 per batch and is therefore the unweighted
mean of the per-batch losses. -/
theorem c7_amended (m : Mode) (batches : List TR.ValBatch) :
    (TR.evaluate m batches).stats.loss
        = (batches.map (fun b => b.loss)).sum / (batches.length : ℚ) ∧
    (TR.evaluate m batches).stats.acc1
        = (batches.map (fun b => b.acc1 * (b.bsize : ℚ))).sum
            / (batches.map (fun b => (b.bsize : ℚ))).sum ∧
    (TR.evaluate m batches).stats.acc5
        = (batches.map (fun b => b.acc5 * (b.bsize : ℚ))).sum
            / (batches.map (fun b => (b.bsize : ℚ))).sum := by
  obtain ⟨h1, h2, h3, h4, h5, h6⟩ := TR.fold_evalBody batches EvalLogger.empty
  refine ⟨?_, ?_, ?_⟩
  · simp only [TR.evaluate, Meter.global_avg]
    rw [h1, h2]
    simp [EvalLogger.empty, Meter.empty, Meter.total, Meter.count]
  · simp only [TR.evaluate, Meter.global_avg]
    rw [h3, h4]
    simp [EvalLogger.empty, Meter.empty, Meter.total, Meter.count]
  · simp only [TR.evaluate, Meter.global_avg]
    rw [h5, h6]
    simp [EvalLogger.empty, Meter.empty, Meter.total, Meter.count]

/-- C8: in the noncached (two-stage) regime the encoder stays frozen for the
whole run: it is in eval mode after setup and after every batch, its parameters
are never modified, every encoder forward call (training and evaluation alike)
runs with gradients disabled, and the optimizer is constructed over the
classifier parameter groups only. -/
theorem c8_frozen_encoder (a : Args) (F : NC.Funcs) (st : NC.Streams)
    (m0 e0 : ℚ) :
    (∀ n, (NC.run a F st m0 e0 n).encoderMode = Mode.eval) ∧
    (∀ n, (NC.run a F st m0 e0 n).encoderParams = e0) ∧
    (∀ n, ∀ f ∈ (NC.effectsAt a F st m0 e0 n).encGradFlags, f = false) ∧
    NC.ParamGroup.encoder ∉ NC.optimizerParamGroups := by
  have hmode : ∀ n, (NC.run a F st m0 e0 n).encoderMode = Mode.eval := by
    intro n
    induction n with
    | zero => rfl
    | succ n ih =>
      rw [NC.runNC_succ,
        (NC.step_encoder_fields a F (NC.run a F st m0 e0 n) (st.samples n)
          (st.targets n) (st.gradContribs n) (st.valBatches n)).1]
      exact ih
  have hparams : ∀ n, (NC.run a F st m0 e0 n).encoderParams = e0 := by
    intro n
    induction n with
    | zero => rfl
    | succ n ih =>
      rw [NC.runNC_succ,
        (NC.step_encoder_fields a F (NC.run a F st m0 e0 n) (st.samples n)
          (st.targets n) (st.gradContribs n) (st.valBatches n)).2]
      exact ih
  refine ⟨hmode, hparams, ?_, by decide⟩
  intro n
  exact NC.step_flags a F (NC.run a F st m0 e0 n) (st.samples n)
    (st.targets n) (st.gradContribs n) (st.valBatches n)

/-- C9: the doubled forward/loss computation in the noncached evaluate is
redundant: in the embedding the classifier forward and the criterion are pure
functions of the (frozen during evaluation) parameters and of the batch, so the
loop body equals the body that computes them exactly once, and the whole
evaluate function equals its single-computation variant on every input. -/
theorem c9_duplicate_forward_redundant :
    (∀ (F : NC.Funcs) (L : EvalLogger) (b : NC.ValBatch),
        NC.evalBody F L b = NC.evalBodyOnce F L b) ∧
    (∀ (F : NC.Funcs) (m : Mode) (batches : List NC.ValBatch),
        NC.evaluate F m batches = NC.evaluateOnce F m batches) :=
  ⟨fun _ _ _ => rfl, fun _ _ _ => rfl⟩

/-- C10: if every evaluation of the run reports a top-1 accuracy of at most 0
(and losses stay finite), then the best tracker stays at its initial value 0
forever, and no batch ever writes a checkpoint, so the run produces no
checkpoint file at all. -/
theorem c10_zero_acc_never_checkpoints (a : Args) (st : TR.Streams)
    (resume : Option Checkpoint) (hfin : ∀ n, (st.losses n).finite = true)
    (hz : ∀ n, (TR.evaluate Mode.train (st.valBatches n)).stats.acc1 ≤ 0) :
    (∀ n, (TR.run a st resume n).best_eval_acc1 = 0) ∧
    (∀ n, (TR.effectsAt a st resume n).didCheckpoint = false ∧
        (TR.effectsAt a st resume n).savedPath = Option.none) := by
  have hbest : ∀ n, (TR.run a st resume n).best_eval_acc1 = 0 := by
    intro n
    induction n with
    | zero => rfl
    | succ n ih =>
      rw [TR.run_succ_core a st resume hfin n, TR.stepCore_best,
        TR.evaluate_stats_mode _ Mode.train, ih]
      have hd : decide ((0 : ℚ) <
          (TR.evaluate Mode.train (st.valBatches n)).stats.acc1) = false :=
        decide_eq_false (not_lt.mpr (hz n))
      rw [hd, Bool.and_false]
      simp
  have hd : ∀ n, decide ((TR.run a st resume n).best_eval_acc1 <
      (TR.evaluate Mode.train (st.valBatches n)).stats.acc1) = false := by
    intro n
    rw [hbest n]
    exact decide_eq_false (not_lt.mpr (hz n))
  refine ⟨hbest, fun n => ⟨?_, ?_⟩⟩
  · rw [TR.effectsAt_eq_core a st resume hfin n, TR.stepCore_didCheckpoint,
      TR.evaluate_stats_mode _ Mode.train, hd n, Bool.and_false]
  · rw [TR.effectsAt_eq_core a st resume hfin n, TR.stepCore_savedPath,
      TR.evaluate_stats_mode _ Mode.train, hd n, Bool.and_false]
    simp

/-- Witness for C10: with an empty validation stream every evaluation reports
accuracy 0, and batch 5 of the run writes nothing. -/
theorem c10_witness :
    (TR.run args0 st0 Option.none 5).best_eval_acc1 = 0 ∧
    (TR.effectsAt args0 st0 Option.none 5).didCheckpoint = false :=
  ⟨(c10_zero_acc_never_checkpoints args0 st0 Option.none (fun _ => rfl)
      (fun _ => by
        simp [st0, TR.evaluate, Meter.global_avg, Meter.total, Meter.count,
          EvalLogger.empty, Meter.empty])).1 5,
    ((c10_zero_acc_never_checkpoints args0 st0 Option.none (fun _ => rfl)
      (fun _ => by
        simp [st0, TR.evaluate, Meter.global_avg, Meter.total, Meter.count,
          EvalLogger.empty, Meter.empty])).2 5).1⟩
